import Mathlib

/-!
# Rental-management billing engine: verification of the specification

Shallow embedding of the billing core of `flask_app.py`.  Python floats are
modelled as exact rationals (`ℚ`); every numeric claim under scrutiny involves
only arithmetic that is exact at these magnitudes, so no claim hinges on
floating-point rounding.  Database reads are modelled as explicit parameters:
the electricity tier table is a `List PriceTier` (the rows of the `PriceTier`
table), and the `TotalElectricityMonth` lookup for the billing month is an
`Option ℚ` carrying the `total_kwh` of the found record, or `none` when no record
exists for that month.

The module defines `calculate_water_cost` twice and `calculate_bill` twice;
in Python the later definition shadows the earlier one, so the name as bound
at call time denotes the second definition in each pair.  We embed both
members of each pair: the first definitions carry a `_v1` suffix, the bare
source name goes to the second (effective) definition.
-/

namespace RentalBilling

/-- The module-level VAT constant `VAT_RATE = 0.08` (line 27). -/
def VAT_RATE : ℚ := 0.08

/-- One row of the `PriceTier` table (lines 83–88): `tier_order` drives the
sort in the query of the evaluator, `from_kwh`/`to_kwh` are the bounds
(`to_kwh = none` models SQL NULL, "unbounded"), `price` the pre-VAT unit
price. -/
structure PriceTier where
  tier_order : ℤ
  from_kwh : ℚ
  to_kwh : Option ℚ
  price : ℚ
deriving DecidableEq, Repr

/-- First `calculate_water_cost` definition (lines 91–97). -/
def calculate_water_cost_v1 (water_usage : ℚ) : ℚ :=
  if water_usage ≤ 0 then 0
  else if water_usage ≤ 5 then water_usage * 16000
  else 5 * 16000 + (water_usage - 5) * 27000

/-- Second `calculate_water_cost` definition (lines 176–180); this is the
binding in effect at call time, including for the call inside the first
`calculate_bill` body. -/
def calculate_water_cost (usage : ℚ) : ℚ :=
  if usage ≤ 5 then usage * 16000
  else 5 * 16000 + (usage - 5) * 27000

/-- The amount the loop body of `calculate_total_electricity_cost_before_vat`
takes from a tier given the remaining usage (lines 123–124):
`used = min(remaining, (to_kwh or inf) - from_kwh)`.  The Python `or` treats
both `None` and `0.0` as falsy, so `to_kwh ∈ {none, some 0}` yields an
infinite tier size, and `min(remaining, inf - from_kwh) = remaining`. -/
def tierUsed (t : PriceTier) (remaining : ℚ) : ℚ :=
  match t.to_kwh with
  | none => remaining
  | some u => if u = 0 then remaining else min remaining (u - t.from_kwh)

/-- The `for tier in tiers` loop of
`calculate_total_electricity_cost_before_vat` (lines 122–129), with the
accumulated `cost` and current `remaining` threaded explicitly.  The loop
adds `used * price` and decrements `remaining` only `if used > 0`, and
breaks as soon as `remaining <= 0`. -/
def evalLoop : List PriceTier → ℚ → ℚ → ℚ
  | [], _, cost => cost
  | t :: ts, remaining, cost =>
    let used := tierUsed t remaining
    let cost2 := if 0 < used then cost + used * t.price else cost
    let rem2 := if 0 < used then remaining - used else remaining
    if rem2 ≤ 0 then cost2 else evalLoop ts rem2 cost2

/-- The query `PriceTier.query.order_by(PriceTier.tier_order).all()` (line 118): the
tier rows in ascending `tier_order`. -/
def sortByOrder (tiers : List PriceTier) : List PriceTier :=
  List.insertionSort (fun a b => a.tier_order ≤ b.tier_order) tiers

/-- The function `calculate_total_electricity_cost_before_vat` (lines 113–131): `0` for
non-positive usage, otherwise the tier loop over the rows sorted by
`tier_order`, starting from `cost = 0`. -/
def calculate_total_electricity_cost_before_vat
    (tiers : List PriceTier) (total_kwh : ℚ) : ℚ :=
  if total_kwh ≤ 0 then 0
  else evalLoop (sortByOrder tiers) total_kwh 0

/-- The values the first `calculate_bill` computes: its locals (lines
137–158) plus the dict entries of lines 161–167, all of which are evaluated
before the dict display reaches its last entry. -/
structure BillBreakdown where
  electricity_usage : ℚ
  water_usage : ℚ
  water_cost : ℚ
  total_month_kwh : ℚ
  total_month_cost_before_vat : ℚ
  average_price : ℚ
  room_electricity_before_vat : ℚ
  electricity_vat : ℚ
  room_electricity_with_vat : ℚ
  total : ℚ
deriving Repr

/-- The straight-line computation of the first `calculate_bill` (lines
135–158) and the dict entries of lines 161–167.  `tiers` is the `PriceTier`
table, `month_entry` the `total_kwh` of the `TotalElectricityMonth` record
found for `bill_month` (or `none`; line 144 substitutes `0.0` then).
`rent_price`/`internet_fee` come from the room the contract resolves to.  The
water-cost call on line 140 resolves, at call time, to the second
`calculate_water_cost`. -/
def calculate_bill_v1_locals (tiers : List PriceTier) (month_entry : Option ℚ)
    (rent_price internet_fee : ℚ)
    (electricity_old electricity_new water_old water_new : ℚ) : BillBreakdown :=
  let electricity_usage := max (electricity_new - electricity_old) 0
  let water_usage := max (water_new - water_old) 0
  let water_cost := calculate_water_cost water_usage
  let total_month_kwh := match month_entry with | some k => k | none => 0
  let total_month_cost_before_vat :=
    calculate_total_electricity_cost_before_vat tiers total_month_kwh
  let average_price :=
    if 0 < total_month_kwh then total_month_cost_before_vat / total_month_kwh
    else 0
  let room_electricity_before_vat := electricity_usage * average_price
  let room_electricity_with_vat := room_electricity_before_vat * (1 + VAT_RATE)
  let total := rent_price + internet_fee + room_electricity_with_vat + water_cost
  { electricity_usage := electricity_usage
    water_usage := water_usage
    water_cost := water_cost
    total_month_kwh := total_month_kwh
    total_month_cost_before_vat := total_month_cost_before_vat
    average_price := average_price
    room_electricity_before_vat := room_electricity_before_vat
    electricity_vat := room_electricity_before_vat * VAT_RATE
    room_electricity_with_vat := room_electricity_with_vat
    total := total }

/-- The Python exceptions relevant to the embedded code paths. -/
inductive PyExc where
  | nameError
deriving DecidableEq, Repr

/-- First `calculate_bill` definition, the Allocation Engine (lines
134–169), as actually written: the body computes the locals of lines
135–158 without raising, but the returned dict display (lines 160–169)
evaluates the name `average_price_before_vat` for its last entry.  That
name is bound nowhere in the module — the local computed on line 150 is
named `average_price` — so every call raises `NameError` at line 168
instead of returning the breakdown. -/
def calculate_bill_v1 (tiers : List PriceTier) (month_entry : Option ℚ)
    (rent_price internet_fee : ℚ)
    (electricity_old electricity_new water_old water_new : ℚ) :
    Except PyExc BillBreakdown :=
  let _breakdown := calculate_bill_v1_locals tiers month_entry rent_price
    internet_fee electricity_old electricity_new water_old water_new
  Except.error PyExc.nameError

/-- The default `electricity_price=4000.0` of the second `calculate_bill`
(line 182). -/
def default_electricity_price : ℚ := 4000

/-- Second `calculate_bill` definition (lines 182–197); this is the binding
the `create_bill` (line 537) and `edit_bill` (line 697) routes invoke.  It
takes a flat `electricity_price` (default `4000.0`, modelled by passing
`default_electricity_price`), applies no VAT, reads neither
`TotalElectricityMonth` nor `PriceTier` (its body mentions no such state,
hence no such parameter here), and returns the 5-tuple
`(total, electricity_usage, water_usage, electricity_cost, water_cost)`. -/
def calculate_bill (rent_price internet_fee : ℚ)
    (electricity_old electricity_new water_old water_new : ℚ)
    (electricity_price : ℚ) : ℚ × ℚ × ℚ × ℚ × ℚ :=
  let electricity_usage :=
    if electricity_old ≤ electricity_new then electricity_new - electricity_old
    else 0
  let water_usage :=
    if water_old ≤ water_new then water_new - water_old else 0
  let electricity_cost := electricity_usage * electricity_price
  let water_cost := calculate_water_cost water_usage
  let total := rent_price + internet_fee + electricity_cost + water_cost
  (total, electricity_usage, water_usage, electricity_cost, water_cost)

/-- The six-tier EVN table seeded at startup (lines 874–881). -/
def evnTiers : List PriceTier :=
  [⟨1, 0, some 50, 1984⟩, ⟨2, 50, some 100, 2050⟩, ⟨3, 100, some 200, 2380⟩,
   ⟨4, 200, some 300, 2998⟩, ⟨5, 300, some 400, 3350⟩, ⟨6, 400, none, 3460⟩]

/-- The water tariff of §4.2 written as a literal two-tier table: first 5
units at 16000, remainder at 27000. -/
def waterTiers : List PriceTier :=
  [⟨1, 0, some 5, 16000⟩, ⟨2, 5, none, 27000⟩]

/-- Modelled from the spec: the data-model invariant of §3 on a tier list
already in ascending `tier_order` — starting from the given lower bound the
tiers are contiguous and non-overlapping (`from_kwh` of each tier equals
the running bound, each bounded tier strictly raises it), and an unbounded
tier can only be last. -/
def chainFrom : ℚ → List PriceTier → Bool
  | _, [] => true
  | lb, t :: ts =>
    decide (t.from_kwh = lb) &&
      match t.to_kwh with
      | none => ts.isEmpty
      | some u => decide (lb < u) && chainFrom u ts

/-- Modelled from the spec: a "valid partitioning tier table" — the rows,
once sorted by `tier_order` exactly as the evaluator sorts them, are
contiguous and non-overlapping starting from `0`. -/
def ValidTierTable (tiers : List PriceTier) : Prop :=
  chainFrom 0 (sortByOrder tiers) = true

instance (tiers : List PriceTier) : Decidable (ValidTierTable tiers) :=
  inferInstanceAs (Decidable (chainFrom 0 (sortByOrder tiers) = true))

/-- Modelled from the spec (the amended hypothesis of C8): a tier with a finite
upper bound that the evaluator also treats as finite — `to_kwh` is a value
other than `0` (the Python `or` treats `0.0` like `None`) — and a
non-negative capacity. -/
def tierBounded (t : PriceTier) : Bool :=
  match t.to_kwh with
  | none => false
  | some u => decide (u ≠ 0) && decide (t.from_kwh ≤ u)

/-- Modelled from the spec: the tier capacity `upper_bound - lower_bound`
(`0` for an unbounded tier, which has no capacity to fill). -/
def tierCap (t : PriceTier) : ℚ :=
  match t.to_kwh with
  | none => 0
  | some u => u - t.from_kwh

/-- Modelled from the spec: "the sum of all tier capacities". -/
def tierCapSum (tiers : List PriceTier) : ℚ :=
  (tiers.map tierCap).sum

/-- Modelled from the spec: "the cost of filling every tier to capacity". -/
def tierCapCost (tiers : List PriceTier) : ℚ :=
  (tiers.map (fun t => tierCap t * t.price)).sum

/-- A one-tier table covering `[0, ∞)` at unit price `-1`: a valid
partitioning per §3, whose invariant constrains only the bounds. -/
def negPriceTier : List PriceTier := [⟨1, 0, none, -1⟩]

/-- A one-tier table whose single tier has the finite upper bound `0.0`;
the falsy `to_kwh` makes `to_kwh or ...` fall through to the float infinity,
so the evaluator treats that bound as infinite. -/
def zeroCapTier : List PriceTier := [⟨1, 0, some 0, 5⟩]

/-- The five bounded tiers of the EVN table (the seed of lines 874–881
without its final unbounded tier); total capacity 400 kWh. -/
def evnBoundedTiers : List PriceTier :=
  [⟨1, 0, some 50, 1984⟩, ⟨2, 50, some 100, 2050⟩, ⟨3, 100, some 200, 2380⟩,
   ⟨4, 200, some 300, 2998⟩, ⟨5, 300, some 400, 3350⟩]

/-! ## Helper lemmas -/

/-- Unfolding lemma for one pass of the tier loop. -/
theorem evalLoop_cons (t : PriceTier) (ts : List PriceTier) (r c : ℚ) :
    evalLoop (t :: ts) r c =
      if (if 0 < tierUsed t r then r - tierUsed t r else r) ≤ 0
      then (if 0 < tierUsed t r then c + tierUsed t r * t.price else c)
      else evalLoop ts (if 0 < tierUsed t r then r - tierUsed t r else r)
        (if 0 < tierUsed t r then c + tierUsed t r * t.price else c) := rfl

/-- The sorted tier list is a permutation of the table. -/
theorem sortPerm (tiers : List PriceTier) : List.Perm (sortByOrder tiers) tiers :=
  List.perm_insertionSort _ tiers

/-- The usage a tier absorbs grows with the remaining usage. -/
theorem tierUsed_mono (t : PriceTier) {a b : ℚ} (hab : a ≤ b) :
    tierUsed t a ≤ tierUsed t b := by
  unfold tierUsed
  cases t.to_kwh with
  | none => exact hab
  | some u =>
    dsimp only
    split_ifs
    · exact hab
    · exact min_le_min hab le_rfl

/-- With non-negative prices the loop never decreases the accumulated
cost. -/
theorem le_evalLoop (ts : List PriceTier) (hp : ∀ t ∈ ts, 0 ≤ t.price)
    (r c : ℚ) : c ≤ evalLoop ts r c := by
  induction ts generalizing r c with
  | nil => exact le_rfl
  | cons t ts ih =>
    rw [evalLoop_cons]
    set u := tierUsed t r with hu
    set c2 := if 0 < u then c + u * t.price else c with hc2d
    set r2 := if 0 < u then r - u else r with hr2d
    have hc2 : c ≤ c2 := by
      rw [hc2d]
      split_ifs with h
      · have hpt := hp t (List.mem_cons_self t ts)
        nlinarith
      · exact le_rfl
    by_cases hrem : r2 ≤ 0
    · rw [if_pos hrem]; exact hc2
    · rw [if_neg hrem]
      exact hc2.trans (ih (fun x hx => hp x (List.mem_cons_of_mem t hx)) r2 c2)

/-- The remaining usage after one tier is monotone in the usage the loop
entered the tier with (for positive remaining usage). -/
theorem remAfter_mono (t : PriceTier) {a b : ℚ} (ha : 0 < a) (hab : a ≤ b) :
    (if 0 < tierUsed t a then a - tierUsed t a else a) ≤
    (if 0 < tierUsed t b then b - tierUsed t b else b) := by
  have hb : 0 < b := ha.trans_le hab
  unfold tierUsed
  cases t.to_kwh with
  | none =>
    dsimp only
    rw [if_pos ha, if_pos hb]
    simp
  | some u =>
    by_cases h0 : u = 0
    · simp only [if_pos h0]
      rw [if_pos ha, if_pos hb]
      simp
    · simp only [if_neg h0]
      by_cases hs : 0 < u - t.from_kwh
      · have hua : 0 < min a (u - t.from_kwh) := lt_min ha hs
        have hub : 0 < min b (u - t.from_kwh) := lt_min hb hs
        rw [if_pos hua, if_pos hub]
        rcases le_total a (u - t.from_kwh) with h | h
        · rw [min_eq_left h]
          have := min_le_left b (u - t.from_kwh)
          linarith
        · rw [min_eq_right h, min_eq_right (h.trans hab)]
          linarith
      · have hua : ¬ 0 < min a (u - t.from_kwh) := by
          push_neg
          exact (min_le_right _ _).trans (not_lt.mp hs)
        have hub : ¬ 0 < min b (u - t.from_kwh) := by
          push_neg
          exact (min_le_right _ _).trans (not_lt.mp hs)
        rw [if_neg hua, if_neg hub]
        exact hab

/-- Core monotonicity of the tier loop: with non-negative prices, a larger
remaining usage and a larger accumulated cost give a larger result. -/
theorem evalLoop_mono :
    ∀ (ts : List PriceTier), (∀ t ∈ ts, 0 ≤ t.price) →
    ∀ {a b ca cb : ℚ}, 0 < a → a ≤ b → ca ≤ cb →
      evalLoop ts a ca ≤ evalLoop ts b cb := by
  intro ts
  induction ts with
  | nil =>
    intro _ a b ca cb _ _ hcc
    exact hcc
  | cons t ts ih =>
    intro hp a b ca cb ha hab hcc
    have hb : 0 < b := ha.trans_le hab
    have hpt : 0 ≤ t.price := hp t (List.mem_cons_self t ts)
    have hp' : ∀ x ∈ ts, 0 ≤ x.price := fun x hx => hp x (List.mem_cons_of_mem t hx)
    rw [evalLoop_cons, evalLoop_cons]
    have humono : tierUsed t a ≤ tierUsed t b := tierUsed_mono t hab
    set ua := tierUsed t a with huad
    set ub := tierUsed t b with hubd
    set ca2 := if 0 < ua then ca + ua * t.price else ca with hca2
    set cb2 := if 0 < ub then cb + ub * t.price else cb with hcb2
    set ra2 := if 0 < ua then a - ua else a with hra2
    set rb2 := if 0 < ub then b - ub else b with hrb2
    have hc : ca2 ≤ cb2 := by
      rw [hca2, hcb2]
      by_cases h1 : 0 < ua
      · rw [if_pos h1, if_pos (h1.trans_le humono)]
        exact add_le_add hcc (mul_le_mul_of_nonneg_right humono hpt)
      · rw [if_neg h1]
        by_cases h2 : 0 < ub
        · rw [if_pos h2]
          exact hcc.trans (le_add_of_nonneg_right (mul_nonneg h2.le hpt))
        · rw [if_neg h2]
          exact hcc
    have hr : ra2 ≤ rb2 := by
      rw [hra2, hrb2]
      exact remAfter_mono t ha hab
    by_cases hra : ra2 ≤ 0
    · rw [if_pos hra]
      by_cases hrb : rb2 ≤ 0
      · rw [if_pos hrb]; exact hc
      · rw [if_neg hrb]
        exact hc.trans (le_evalLoop ts hp' rb2 cb2)
    · have hra' : 0 < ra2 := not_le.mp hra
      have hrb : ¬ rb2 ≤ 0 := by
        push_neg
        exact hra'.trans_le hr
      rw [if_neg hra, if_neg hrb]
      exact ih hp' hra' hr hc

/-- Unpacking `tierBounded`: the upper bound exists, is nonzero, and is at
or above the lower bound. -/
theorem tierBounded_spec {t : PriceTier} (h : tierBounded t = true) :
    ∃ u, t.to_kwh = some u ∧ u ≠ 0 ∧ t.from_kwh ≤ u := by
  unfold tierBounded at h
  cases htk : t.to_kwh with
  | none => rw [htk] at h; simp at h
  | some u =>
    rw [htk] at h
    simp only [Bool.and_eq_true, decide_eq_true_eq] at h
    exact ⟨u, rfl, h.1, h.2⟩

/-- A table of bounded tiers has a non-negative total capacity. -/
theorem tierCapSum_nonneg (ts : List PriceTier)
    (hb : ∀ t ∈ ts, tierBounded t = true) : 0 ≤ tierCapSum ts := by
  unfold tierCapSum
  apply List.sum_nonneg
  intro x hx
  obtain ⟨t, ht, rfl⟩ := List.mem_map.mp hx
  obtain ⟨u, htk, _, hfl⟩ := tierBounded_spec (hb t ht)
  simp only [tierCap, htk]
  linarith

/-- When every tier is bounded and the usage strictly exceeds the total
capacity, the loop fills every tier exactly to capacity. -/
theorem evalLoop_drops_excess :
    ∀ (ts : List PriceTier), (∀ t ∈ ts, tierBounded t = true) →
    ∀ {r c : ℚ}, tierCapSum ts < r → evalLoop ts r c = c + tierCapCost ts := by
  intro ts
  induction ts with
  | nil =>
    intro _ r c _
    simp [evalLoop, tierCapCost]
  | cons t ts ih =>
    intro hb r c h
    obtain ⟨u, htk, hu0, hfl⟩ := tierBounded_spec (hb t (List.mem_cons_self t ts))
    have hb' : ∀ x ∈ ts, tierBounded x = true := fun x hx => hb x (List.mem_cons_of_mem t hx)
    have hsum : tierCapSum (t :: ts) = (u - t.from_kwh) + tierCapSum ts := by
      simp [tierCapSum, tierCap, htk]
    have hcost : tierCapCost (t :: ts) = (u - t.from_kwh) * t.price + tierCapCost ts := by
      simp [tierCapCost, tierCap, htk]
    have hts0 : 0 ≤ tierCapSum ts := tierCapSum_nonneg ts hb'
    have hs0 : 0 ≤ u - t.from_kwh := sub_nonneg.mpr hfl
    rw [hsum] at h
    have hr0 : 0 < r := by linarith
    have hused : tierUsed t r = min r (u - t.from_kwh) := by
      unfold tierUsed
      rw [htk]
      simp [hu0]
    have hmin : min r (u - t.from_kwh) = u - t.from_kwh := min_eq_right (by linarith)
    rw [evalLoop_cons, hused, hmin]
    rcases eq_or_lt_of_le hs0 with hseq | hslt
    · rw [← hseq]
      have h00 : ¬ (0:ℚ) < 0 := lt_irrefl 0
      simp only [if_neg h00, if_neg (not_le.mpr hr0)]
      rw [ih hb' (by linarith), hcost, ← hseq]
      ring
    · rw [if_pos hslt, if_pos hslt]
      rw [if_neg (by push_neg; linarith)]
      rw [ih hb' (show tierCapSum ts < r - (u - t.from_kwh) by linarith), hcost]
      ring

/-! ## Claim theorems -/

/-- C1: the claim states the bill computation of the Allocation Engine
raises no exception and resolves every degenerate input to a zero-cost
component.  The code contradicts it: the returned dict of the first
`calculate_bill` evaluates the unbound name `average_price_before_vat`
(line 168; the local defined on line 150 is `average_price`), so every call
— degenerate or not — raises `NameError` instead of returning a breakdown.
This theorem evaluates the embedded engine on arbitrary inputs, the
degenerate ones included. -/
theorem allocation_engine_always_raises (tiers : List PriceTier)
    (month_entry : Option ℚ)
    (rent_price internet_fee electricity_old electricity_new water_old water_new : ℚ) :
    calculate_bill_v1 tiers month_entry rent_price internet_fee
      electricity_old electricity_new water_old water_new =
    Except.error PyExc.nameError := rfl

/-- C2: the second `calculate_bill` — the binding the routes invoke —
prices electricity at the flat per-unit `electricity_price` with no VAT,
so whenever the tenant usage is positive and the average unit price of the
Allocation Engine differs from the flat rate, its electricity cost
(component 4 of the returned 5-tuple) differs from
`room_electricity_before_vat` of the tiered definition at lines 134–169:
the two definitions are not extensionally equivalent. -/
theorem effective_bill_diverges_from_allocation_engine
    (tiers : List PriceTier) (month_entry : Option ℚ)
    (rent_price internet_fee electricity_old electricity_new water_old water_new
      electricity_price : ℚ)
    (husage : electricity_old < electricity_new)
    (hprice : (calculate_bill_v1_locals tiers month_entry rent_price internet_fee
      electricity_old electricity_new water_old water_new).average_price ≠ electricity_price) :
    (calculate_bill rent_price internet_fee electricity_old electricity_new
      water_old water_new electricity_price).2.2.2.1 ≠
    (calculate_bill_v1_locals tiers month_entry rent_price internet_fee
      electricity_old electricity_new water_old water_new).room_electricity_before_vat := by
  have hmax : max (electricity_new - electricity_old) 0 = electricity_new - electricity_old :=
    max_eq_left (by linarith)
  have hne : electricity_new - electricity_old ≠ 0 := sub_ne_zero.mpr (ne_of_gt husage)
  simp only [calculate_bill, calculate_bill_v1_locals, if_pos husage.le, hmax] at *
  intro heq
  exact hprice (mul_left_cancel₀ hne heq).symm

/-- C2 witness: with the seeded EVN table and a building total of 120 kWh
the average unit price is 2077.5, not the flat default 4000, so for a
tenant using 10 kWh the two definitions disagree. -/
theorem effective_bill_divergence_example :
    (calculate_bill 2000000 100000 0 10 0 0 default_electricity_price).2.2.2.1 ≠
    (calculate_bill_v1_locals evnTiers (some 120) 2000000 100000 0 10 0 0).room_electricity_before_vat :=
  effective_bill_diverges_from_allocation_engine evnTiers (some 120) 2000000 100000 0 10 0 0
    default_electricity_price (by norm_num)
    (by norm_num [calculate_bill_v1_locals, calculate_total_electricity_cost_before_vat,
      sortByOrder, List.insertionSort, List.orderedInsert, evalLoop, tierUsed, evnTiers,
      default_electricity_price, min_def])

/-- C3 counterexample: on the seeded six-tier table the evaluator at 120
kWh does NOT return 301900 — the claimed sum 50·1984 + 50·2050 + 20·2380
equals 249300, and 301900 is an arithmetic slip of the spec. -/
theorem evn_cost_at_120_ne_301900 :
    calculate_total_electricity_cost_before_vat evnTiers 120 ≠ 301900 := by
  norm_num [calculate_total_electricity_cost_before_vat, sortByOrder,
    List.insertionSort, List.orderedInsert, evalLoop, tierUsed, evnTiers, min_def]

/-- C3 amended: with the six-tier table, `evaluate(120, tiers)` equals
50·1984 + 50·2050 + 20·2380 = 249300. -/
theorem evn_cost_at_120_eq_249300 :
    calculate_total_electricity_cost_before_vat evnTiers 120 = 50 * 1984 + 50 * 2050 + 20 * 2380 ∧
    calculate_total_electricity_cost_before_vat evnTiers 120 = 249300 := by
  norm_num [calculate_total_electricity_cost_before_vat, sortByOrder,
    List.insertionSort, List.orderedInsert, evalLoop, tierUsed, evnTiers, min_def]

/-- C4: whenever the building total for the billing month is `0` — in
particular when no `TotalElectricityMonth` record exists, which line 144
maps to `0.0` — the computed breakdown has zero pre-tax tenant electricity
cost and zero electricity VAT, regardless of the tenant readings. -/
theorem zero_building_usage_zero_electricity (tiers : List PriceTier)
    (month_entry : Option ℚ)
    (rent_price internet_fee electricity_old electricity_new water_old water_new : ℚ)
    (hm : month_entry.getD 0 = 0) :
    (calculate_bill_v1_locals tiers month_entry rent_price internet_fee
      electricity_old electricity_new water_old water_new).room_electricity_before_vat = 0 ∧
    (calculate_bill_v1_locals tiers month_entry rent_price internet_fee
      electricity_old electricity_new water_old water_new).electricity_vat = 0 := by
  have hmk : (match month_entry with | some k => k | none => (0:ℚ)) = 0 := by
    cases month_entry with
    | none => rfl
    | some k => simpa using hm
  simp only [calculate_bill_v1_locals, hmk]
  norm_num

/-- C4 witness: no monthly record, tenant electricity usage 50. -/
theorem zero_building_usage_zero_electricity_example :
    (calculate_bill_v1_locals evnTiers none 2000000 100000 0 50 0 0).room_electricity_before_vat = 0 ∧
    (calculate_bill_v1_locals evnTiers none 2000000 100000 0 50 0 0).electricity_vat = 0 :=
  zero_building_usage_zero_electricity evnTiers none 2000000 100000 0 50 0 0 rfl

/-- C5: in the Allocation Engine computation (lines 156–158), VAT lands on
the pre-tax electricity component only: the grand total equals
`rent_price + internet_fee + (pre-tax electricity + its VAT) + water_cost`,
with rent, internet and water entering unscaled. -/
theorem vat_applies_to_electricity_only (tiers : List PriceTier)
    (month_entry : Option ℚ)
    (rent_price internet_fee electricity_old electricity_new water_old water_new : ℚ) :
    (calculate_bill_v1_locals tiers month_entry rent_price internet_fee
      electricity_old electricity_new water_old water_new).total =
    rent_price + internet_fee +
      ((calculate_bill_v1_locals tiers month_entry rent_price internet_fee
        electricity_old electricity_new water_old water_new).room_electricity_before_vat +
       (calculate_bill_v1_locals tiers month_entry rent_price internet_fee
        electricity_old electricity_new water_old water_new).electricity_vat) +
      (calculate_bill_v1_locals tiers month_entry rent_price internet_fee
        electricity_old electricity_new water_old water_new).water_cost := by
  simp only [calculate_bill_v1_locals, VAT_RATE]
  ring

/-- C6: readings with `electricity_new < electricity_old` and
`water_new < water_old` clamp both derived usages to `0` in both
`calculate_bill` definitions — negative usage is never produced — and the
clamped electricity usage propagates a zero electricity cost (pre-tax and
VAT in the first definition, the flat cost in the second). -/
theorem negative_readings_clamp_to_zero (tiers : List PriceTier)
    (month_entry : Option ℚ)
    (rent_price internet_fee electricity_old electricity_new water_old water_new : ℚ)
    (he : electricity_new < electricity_old) (hw : water_new < water_old) :
    (calculate_bill_v1_locals tiers month_entry rent_price internet_fee
      electricity_old electricity_new water_old water_new).electricity_usage = 0 ∧
    (calculate_bill_v1_locals tiers month_entry rent_price internet_fee
      electricity_old electricity_new water_old water_new).water_usage = 0 ∧
    (calculate_bill_v1_locals tiers month_entry rent_price internet_fee
      electricity_old electricity_new water_old water_new).room_electricity_before_vat = 0 ∧
    (calculate_bill_v1_locals tiers month_entry rent_price internet_fee
      electricity_old electricity_new water_old water_new).electricity_vat = 0 ∧
    (calculate_bill rent_price internet_fee electricity_old electricity_new
      water_old water_new default_electricity_price).2.1 = 0 ∧
    (calculate_bill rent_price internet_fee electricity_old electricity_new
      water_old water_new default_electricity_price).2.2.1 = 0 ∧
    (calculate_bill rent_price internet_fee electricity_old electricity_new
      water_old water_new default_electricity_price).2.2.2.1 = 0 := by
  have he' : max (electricity_new - electricity_old) 0 = 0 := max_eq_right (by linarith)
  have hw' : max (water_new - water_old) 0 = 0 := max_eq_right (by linarith)
  simp only [calculate_bill_v1_locals, calculate_bill, he', hw',
    if_neg (not_le.mpr he), if_neg (not_le.mpr hw)]
  norm_num

/-- C6 witness: transposed readings 10→5 (electricity) and 8→3 (water). -/
theorem negative_readings_clamp_example :
    (calculate_bill_v1_locals evnTiers (some 120) 2000000 100000 10 5 8 3).electricity_usage = 0 ∧
    (calculate_bill_v1_locals evnTiers (some 120) 2000000 100000 10 5 8 3).water_usage = 0 ∧
    (calculate_bill_v1_locals evnTiers (some 120) 2000000 100000 10 5 8 3).room_electricity_before_vat = 0 ∧
    (calculate_bill_v1_locals evnTiers (some 120) 2000000 100000 10 5 8 3).electricity_vat = 0 ∧
    (calculate_bill 2000000 100000 10 5 8 3 default_electricity_price).2.1 = 0 ∧
    (calculate_bill 2000000 100000 10 5 8 3 default_electricity_price).2.2.1 = 0 ∧
    (calculate_bill 2000000 100000 10 5 8 3 default_electricity_price).2.2.2.1 = 0 :=
  negative_readings_clamp_to_zero evnTiers (some 120) 2000000 100000 10 5 8 3
    (by norm_num) (by norm_num)

/-- C7 counterexample: the single-tier table `[(0, None, -1)]` is a valid
partitioning of `[0, ∞)` (the invariant of §3 constrains only the bounds),
yet the evaluator is not monotone on it: `evaluate(0) = 0` while
`evaluate(1) = -1`. -/
theorem evaluate_not_monotone_with_negative_price :
    ValidTierTable negPriceTier ∧
    (0:ℚ) ≤ 0 ∧ (0:ℚ) ≤ 1 ∧
    ¬ (calculate_total_electricity_cost_before_vat negPriceTier 0 ≤
       calculate_total_electricity_cost_before_vat negPriceTier 1) := by
  refine ⟨by decide, le_rfl, by norm_num, ?_⟩
  norm_num [calculate_total_electricity_cost_before_vat, sortByOrder,
    List.insertionSort, List.orderedInsert, evalLoop, tierUsed, negPriceTier]

/-- C7 amended: for every valid partitioning tier table all of whose unit
prices are non-negative, the evaluator is monotonically non-decreasing in
the total usage. -/
theorem evaluate_monotone_of_nonneg_prices (tiers : List PriceTier)
    (_hvalid : ValidTierTable tiers) (hp : ∀ t ∈ tiers, 0 ≤ t.price)
    {a b : ℚ} (_ha : 0 ≤ a) (hab : a ≤ b) :
    calculate_total_electricity_cost_before_vat tiers a ≤
    calculate_total_electricity_cost_before_vat tiers b := by
  have hp' : ∀ t ∈ sortByOrder tiers, 0 ≤ t.price := fun t ht =>
    hp t ((sortPerm tiers).subset ht)
  unfold calculate_total_electricity_cost_before_vat
  by_cases h1 : a ≤ 0
  · rw [if_pos h1]
    by_cases h2 : b ≤ 0
    · rw [if_pos h2]
    · rw [if_neg h2]
      exact le_evalLoop _ hp' b 0
  · rw [if_neg h1, if_neg (by push_neg; push_neg at h1; linarith : ¬ b ≤ 0)]
    exact evalLoop_mono _ hp' (not_le.mp h1) hab le_rfl

/-- C7 witness: monotonicity on the seeded EVN table between 3 and 7
kWh. -/
theorem evaluate_monotone_example :
    calculate_total_electricity_cost_before_vat evnTiers 3 ≤
    calculate_total_electricity_cost_before_vat evnTiers 7 :=
  evaluate_monotone_of_nonneg_prices evnTiers (by decide) (by decide)
    (by norm_num) (by norm_num)

/-- C8 counterexample: the table `[(0, 0.0, 5)]` has only finite upper
bounds and total capacity 0, and usage 3 exceeds that capacity, yet the
evaluator does NOT drop the excess: Python `to_kwh or float(...)` treats
the finite bound `0.0` as unbounded, so the result is 15, not the
fill-to-capacity cost 0. -/
theorem zero_upper_bound_tier_treated_unbounded :
    (∀ t ∈ zeroCapTier, t.to_kwh ≠ none) ∧
    tierCapSum zeroCapTier < 3 ∧
    calculate_total_electricity_cost_before_vat zeroCapTier 3 ≠ tierCapCost zeroCapTier := by
  refine ⟨by decide, by norm_num [tierCapSum, tierCap, zeroCapTier], ?_⟩
  norm_num [calculate_total_electricity_cost_before_vat, sortByOrder,
    List.insertionSort, List.orderedInsert, evalLoop, tierUsed, zeroCapTier,
    tierCapCost, tierCap]

/-- C8 amended: for every tier table whose tiers all have finite NONZERO
upper bounds at or above their lower bounds, and every total usage
exceeding the sum of all tier capacities, the evaluator prices exactly the
usage covered by the tiers: the result is the cost of filling every tier
to capacity, and the excess is silently dropped. -/
theorem bounded_tiers_drop_excess (tiers : List PriceTier)
    (hb : ∀ t ∈ tiers, tierBounded t = true) (total : ℚ)
    (h : tierCapSum tiers < total) :
    calculate_total_electricity_cost_before_vat tiers total = tierCapCost tiers := by
  have hperm := sortPerm tiers
  have hb' : ∀ t ∈ sortByOrder tiers, tierBounded t = true := fun t ht =>
    hb t (hperm.subset ht)
  have hsum : tierCapSum (sortByOrder tiers) = tierCapSum tiers :=
    List.Perm.sum_eq (hperm.map tierCap)
  have hcost : tierCapCost (sortByOrder tiers) = tierCapCost tiers :=
    List.Perm.sum_eq (hperm.map _)
  have h0 : 0 ≤ tierCapSum tiers := by
    rw [← hsum]
    exact tierCapSum_nonneg _ hb'
  unfold calculate_total_electricity_cost_before_vat
  rw [if_neg (by push_neg; linarith)]
  rw [evalLoop_drops_excess (sortByOrder tiers) hb' (by rw [hsum]; exact h), hcost]
  ring

/-- C8 witness: the five bounded EVN tiers (total capacity 400) at usage
500 price exactly the 400 kWh of capacity. -/
theorem bounded_tiers_drop_excess_example :
    calculate_total_electricity_cost_before_vat evnBoundedTiers 500 =
    tierCapCost evnBoundedTiers :=
  bounded_tiers_drop_excess evnBoundedTiers (by decide) 500
    (by norm_num [tierCapSum, tierCap, evnBoundedTiers])

/-- C9: for every non-negative water usage, the standalone water-tariff
function returns exactly what the general tiered evaluator returns on the
literal two-tier table `[(0, 5, 16000), (5, None, 27000)]`. -/
theorem water_cost_eq_two_tier_evaluator (u : ℚ) (hu : 0 ≤ u) :
    calculate_water_cost u =
    calculate_total_electricity_cost_before_vat waterTiers u := by
  unfold calculate_water_cost calculate_total_electricity_cost_before_vat
  have hsort : sortByOrder waterTiers = waterTiers := rfl
  rw [hsort]
  rcases eq_or_lt_of_le hu with h0 | h0
  · rw [← h0]
    norm_num
  · rw [if_neg (not_le.mpr h0)]
    show _ = evalLoop (⟨1, 0, some 5, 16000⟩ :: [⟨2, 5, none, 27000⟩]) u 0
    rw [evalLoop_cons]
    have hused : tierUsed ⟨1, 0, some 5, 16000⟩ u = min u 5 := by
      unfold tierUsed
      norm_num
    rw [hused]
    by_cases h5 : u ≤ 5
    · rw [min_eq_left h5]
      rw [if_pos h0, if_pos h0, if_pos (by linarith : u - u ≤ 0), if_pos h5]
      ring
    · have h5' : (5:ℚ) < u := not_le.mp h5
      rw [min_eq_right h5'.le]
      have h05 : (0:ℚ) < 5 := by norm_num
      rw [if_pos h05, if_pos h05, if_neg (by push_neg; linarith : ¬ u - 5 ≤ 0)]
      rw [evalLoop_cons]
      have hused2 : tierUsed ⟨2, 5, none, 27000⟩ (u - 5) = u - 5 := rfl
      rw [hused2]
      have hpos : (0:ℚ) < u - 5 := by linarith
      rw [if_pos hpos, if_pos hpos, if_pos (by linarith : u - 5 - (u - 5) ≤ 0), if_neg h5]
      ring

/-- C9 witness: agreement at usage 7 (cost 134000). -/
theorem water_cost_eq_two_tier_example :
    calculate_water_cost 7 =
    calculate_total_electricity_cost_before_vat waterTiers 7 :=
  water_cost_eq_two_tier_evaluator 7 (by norm_num)

/-- C10: the fixed points of the water tariff — `water_cost(5) = 80000`,
`water_cost(7) = 80000 + 2·27000 = 134000`, `water_cost(0) = 0` — hold for
both module-level definitions of `calculate_water_cost`. -/
theorem water_cost_fixed_points :
    calculate_water_cost 5 = 80000 ∧ calculate_water_cost 7 = 134000 ∧
    calculate_water_cost 0 = 0 ∧
    calculate_water_cost_v1 5 = 80000 ∧ calculate_water_cost_v1 7 = 134000 ∧
    calculate_water_cost_v1 0 = 0 := by
  norm_num [calculate_water_cost, calculate_water_cost_v1]

end RentalBilling
